import Mathlib

set_option linter.unusedVariables false

/-!
# Weave character-development orchestration core: a shallow embedding

This file embeds the multi-stage task orchestration core of the Weave
backend (the Character Identity pipeline) in Lean 4 and proves properties
of it.  The embedding follows the code excerpts reproduced verbatim in
`CHARACTER_IDENTITY_DEEP_DIVE.md` (orchestrator.py, agent.py, storage.py,
api/server.py) together with the API contracts documented in the frontend
integration guide.

The pipeline runs three waves of generation tasks.  After the tasks of a
wave have all completed (an `asyncio.gather` barrier), one checkpoint per
task is created *in fixed plan order*; the creation of each checkpoint is
followed by a polling wait (`_wait_for_checkpoint_approval`) on the
durable `completed_checkpoints` counter.  External actors can at any time
call the approval / feedback API operations, which read-modify-write the
persisted session metadata.  We model the orchestrator as a small-step
transition system whose external steps are exactly those API operations.
-/

/-- `status` enum of the persisted session metadata (storage.py lines 71-81). -/
inductive SessionStatus where
  | in_progress
  | completed
  | failed
deriving DecidableEq, Repr

/-- Development mode hint (schemas.py line 227). -/
inductive Mode where
  | fast
  | balanced
  | deep
deriving DecidableEq, Repr

/-- `status` enum of a persisted checkpoint record
(deep dive, checkpoint JSON structure lines 167-186). -/
inductive CheckpointStatus where
  | awaiting_approval
  | approved
  | rejected
  | in_progress
deriving DecidableEq, Repr

/-- The pair a generation task returns: a narrative string plus its
structured output (the structured part is an opaque JSON value, modelled
as a string). -/
structure TaskResult where
  structured : String
  narrative : String
deriving DecidableEq, Repr

/-- `output` field of a checkpoint record: `{ narrative, structured }`. -/
structure CheckpointOutput where
  narrative : String
  structured : String
deriving DecidableEq, Repr

/-- `metadata` field of a checkpoint record:
`{ wave, timestamp, tokens_used, agent_time_seconds }`. -/
structure CheckpointMeta where
  wave : Nat
  timestamp : String
  tokens_used : Nat
  agent_time_seconds : Nat
deriving DecidableEq, Repr

/-- A persisted checkpoint record (deep dive lines 167-186). -/
structure Checkpoint where
  checkpoint_number : Nat
  agent : String
  status : CheckpointStatus
  output : CheckpointOutput
  metadata : CheckpointMeta
deriving DecidableEq, Repr

/-- The persisted `metadata.json` of a session (storage.py lines 71-81;
the `error` field is added on failure per the integration guide). -/
structure SessionMetadata where
  character_id : String
  created_at : String
  status : SessionStatus
  mode : Mode
  current_wave : Nat
  current_checkpoint : Nat
  completed_checkpoints : Nat
  total_checkpoints : Nat
  regenerations : Nat
  completed_at : Option String
  error : Option String
deriving DecidableEq, Repr

/-- The shared knowledge base (`CharacterKnowledgeBase`, schemas.py lines
223-242).  One optional field per sub-agent output; `agent_statuses` maps
an agent name to a `(status, wave)` pair. -/
structure KnowledgeBase where
  character_id : String
  input_data : String
  mode : Mode
  personality : Option String
  backstory_motivation : Option String
  voice_dialogue : Option String
  physical_description : Option String
  story_arc : Option String
  relationships : Option String
  image_generation : Option String
  current_wave : Nat
  current_checkpoint : Nat
  agent_statuses : List (String × String × Nat)
deriving DecidableEq, Repr

/-- The durable per-session store: metadata, knowledge base, the ordered
list of saved checkpoint files, and the final profile once written
(storage layout, deep dive section 5). -/
structure SessionState where
  metadata : SessionMetadata
  kb : KnowledgeBase
  checkpoints : List Checkpoint
  final_profile : Option String
deriving DecidableEq, Repr

/-- Read the output stored in the knowledge base under a task name
(one branch per agent-output field of `CharacterKnowledgeBase`). -/
def KnowledgeBase.taskOutput (kb : KnowledgeBase) (a : String) : Option String :=
  if a = "personality" then kb.personality
  else if a = "backstory_motivation" then kb.backstory_motivation
  else if a = "voice_dialogue" then kb.voice_dialogue
  else if a = "physical_description" then kb.physical_description
  else if a = "story_arc" then kb.story_arc
  else if a = "relationships" then kb.relationships
  else if a = "image_generation" then kb.image_generation
  else none

/-- Write a task's structured output into its knowledge-base field
(`self.kb["personality"] = personality_output`, etc.). -/
def KnowledgeBase.setTaskOutput (kb : KnowledgeBase) (a : String) (v : String) : KnowledgeBase :=
  if a = "personality" then { kb with personality := some v }
  else if a = "backstory_motivation" then { kb with backstory_motivation := some v }
  else if a = "voice_dialogue" then { kb with voice_dialogue := some v }
  else if a = "physical_description" then { kb with physical_description := some v }
  else if a = "story_arc" then { kb with story_arc := some v }
  else if a = "relationships" then { kb with relationships := some v }
  else if a = "image_generation" then { kb with image_generation := some v }
  else kb

/-- `self.kb["agent_statuses"][a] = ...` — dictionary update on the
status map. -/
def KnowledgeBase.setAgentStatus (kb : KnowledgeBase) (a st : String) (w : Nat) :
    KnowledgeBase :=
  { kb with agent_statuses := (a, st, w) :: kb.agent_statuses.filter (fun e => e.1 ≠ a) }

/-- `approve_checkpoint` (agent.py lines 155-165): load the metadata, set
`completed_checkpoints = checkpoint_number`, save.  Nothing else is read,
validated or written. -/
def approve_checkpoint (s : SessionState) (checkpoint_number : Nat) : SessionState :=
  { s with metadata := { s.metadata with completed_checkpoints := checkpoint_number } }

/-- `regenerate_agent` (agent.py lines 167-189): increments the
`regenerations` counter and saves; the regeneration itself is a TODO
(`pass`), so the feedback is not stored and nothing else changes. -/
def regenerate_agent (s : SessionState) (agent_name : String) (feedback : String) :
    SessionState :=
  { s with metadata := { s.metadata with regenerations := s.metadata.regenerations + 1 } }

/-- Response shape of `POST /api/character/.../feedback`
(api/server.py lines 220-234). -/
structure FeedbackResponse where
  message : String
  status : String
  estimated_time_seconds : Nat
deriving DecidableEq, Repr

/-- `submit_feedback` (api/server.py lines 220-234): a stub endpoint that
acknowledges the rejection with a canned response and performs no state
change at all. -/
def submit_feedback (s : SessionState) (checkpoint : Nat) (feedback : String) :
    SessionState × FeedbackResponse :=
  (s, { message := "Regenerating checkpoint " ++ toString checkpoint ++ " with feedback"
      , status := "regenerating"
      , estimated_time_seconds := 4 })

/-- The terminal rejection flow (agent.py lines 374-381): the feedback is
printed but not stored, and the checkpoint is approved anyway so the run
continues. -/
def reject_checkpoint_terminal (s : SessionState) (checkpoint_num : Nat)
    (feedback : String) : SessionState :=
  approve_checkpoint s checkpoint_num

/-- `GET /api/character/.../checkpoint/n`: fetch the persisted checkpoint
record with the given number. -/
def get_checkpoint (s : SessionState) (n : Nat) : Option Checkpoint :=
  s.checkpoints.find? (fun cp => cp.checkpoint_number = n)

/-- `await asyncio.sleep(0.5)` — the poll interval of the approval wait
loop, in seconds (orchestrator.py lines 111-122). -/
def checkpoint_poll_interval_seconds : ℚ := 1 / 2

/-- One run of the `while True` body of `_wait_for_checkpoint_approval`
(orchestrator.py lines 111-122), modelled over the sequence of metadata
snapshots `reads i` the loop observes at its `i`-th iteration: the loop
breaks at the first iteration whose freshly loaded metadata satisfies
`completed_checkpoints >= checkpoint_number`, and otherwise sleeps and
retries forever.  `fuel` bounds how many iterations we unfold; the
function returns the index of the iteration at which the loop broke. -/
def wait_poll (reads : Nat → SessionMetadata) (checkpoint_number : Nat) :
    Nat → Nat → Option Nat
  | 0, _ => none
  | fuel + 1, i =>
      if checkpoint_number ≤ (reads i).completed_checkpoints then some i
      else wait_poll reads checkpoint_number fuel (i + 1)

/-- `_wait_for_checkpoint_approval`: start polling at iteration 0. -/
def wait_for_checkpoint_approval (reads : Nat → SessionMetadata)
    (checkpoint_number fuel : Nat) : Option Nat :=
  wait_poll reads checkpoint_number fuel 0

/-- WebSocket lifecycle events (deep dive section 3; integration guide
event list).  The `error` event carries an optional agent name (the
integration guide types it `agent?: string`). -/
inductive Event where
  | wave_started (wave : Nat) (agents : List String)
  | agent_completed (agent : String) (wave : Nat) (time_seconds : Nat)
  | checkpoint_ready (checkpoint_number : Nat) (agent : String) (message : String)
  | wave_complete (wave : Nat) (agents_completed : List String) (next_wave : Nat)
  | character_complete (character_id : String)
  | error (message : String) (agent : Option String)
deriving DecidableEq, Repr

/-- Agents of each wave, in task-definition order (orchestrator.py lines
4-9; wave 3 runs only `relationships`, image generation being disabled). -/
def waveAgents : Nat → List String
  | 1 => ["personality", "backstory_motivation"]
  | 2 => ["voice_dialogue", "physical_description", "story_arc"]
  | 3 => ["relationships"]
  | _ => []

/-- Estimated token counts hard-coded per sub-agent (deep dive section 1). -/
def tokensUsed : String → Nat
  | "personality" => 1500
  | "backstory_motivation" => 1800
  | "voice_dialogue" => 1600
  | "physical_description" => 1400
  | "story_arc" => 1700
  | "relationships" => 1800
  | _ => 0

/-- The environment a run is parameterised over: the opaque results of
the generation tasks, which tasks raise, the order in which the tasks of
a wave happen to finish (this only influences `agent_completed` events),
and the opaque values the system reads from its surroundings. -/
structure Env where
  results : String → TaskResult
  taskErr : String → Option String
  order : Nat → List String
  agentTime : String → Nat
  timestampAt : Nat → String
  finalStructured : String
  completedAt : String
  mode : Mode
  character_id : String
  input_data : String

/-- The output recorded for a task's checkpoint: the final consolidation
checkpoint stores the consolidated profile with its fixed narrative
(orchestrator.py, `create_final_profile`), every other checkpoint stores
the task's own result. -/
def taskOutputOf (env : Env) (a : String) : CheckpointOutput :=
  if a = "final_consolidation" then
    { narrative := "Character development complete. All aspects consolidated into comprehensive profile."
    , structured := env.finalStructured }
  else
    { narrative := (env.results a).narrative, structured := (env.results a).structured }

/-- Build the checkpoint record saved by `_create_checkpoint`
(orchestrator.py lines 62-109): number, agent, `status =
awaiting_approval` (the only status ever written, orchestrator.py line
77), output, and metadata. -/
def mkCheckpoint (env : Env) (k : Nat) (a : String) (w : Nat) : Checkpoint :=
  { checkpoint_number := k
  , agent := a
  , status := .awaiting_approval
  , output := taskOutputOf env a
  , metadata :=
      { wave := w
      , timestamp := env.timestampAt k
      , tokens_used := tokensUsed a
      , agent_time_seconds := env.agentTime a } }

/-- The full checkpoint sequence of a run, in task-definition order
(deep dive section 2, the checkpoint table: numbers 1-7, waves 1,1,2,2,2,3
and the final consolidation as wave 4).  It depends only on the task
results, never on the order in which tasks complete. -/
def checkpointPlan (env : Env) : List Checkpoint :=
  [ mkCheckpoint env 1 "personality" 1
  , mkCheckpoint env 2 "backstory_motivation" 1
  , mkCheckpoint env 3 "voice_dialogue" 2
  , mkCheckpoint env 4 "physical_description" 2
  , mkCheckpoint env 5 "story_arc" 2
  , mkCheckpoint env 6 "relationships" 3
  , mkCheckpoint env 7 "final_consolidation" 4 ]

/-- Agent name of checkpoint number `n` (deep dive section 2 table). -/
def agentOfNum : Nat → String
  | 1 => "personality"
  | 2 => "backstory_motivation"
  | 3 => "voice_dialogue"
  | 4 => "physical_description"
  | 5 => "story_arc"
  | 6 => "relationships"
  | 7 => "final_consolidation"
  | _ => ""

/-- Wave of checkpoint number `n` (deep dive section 2 table). -/
def waveOfNum : Nat → Nat
  | 1 => 1
  | 2 => 1
  | 3 => 2
  | 4 => 2
  | 5 => 2
  | 6 => 3
  | 7 => 4
  | _ => 0

/-- Number of checkpoints created before wave `w` begins. -/
def planCount : Nat → Nat
  | 2 => 2
  | 3 => 5
  | _ => 0

/-- The knowledge base as created by `create_character` (storage.py lines
51-116): all agent-output fields empty, every agent status `pending`. -/
def initKb (env : Env) : KnowledgeBase :=
  { character_id := env.character_id
  , input_data := env.input_data
  , mode := env.mode
  , personality := none
  , backstory_motivation := none
  , voice_dialogue := none
  , physical_description := none
  , story_arc := none
  , relationships := none
  , image_generation := none
  , current_wave := 1
  , current_checkpoint := 0
  , agent_statuses :=
      (waveAgents 1 ++ waveAgents 2 ++ waveAgents 3).map (fun a => (a, "pending", 0)) }

/-- The session store as created by `create_character`: fresh metadata
with `status = in_progress`, `completed_checkpoints = 0`,
`total_checkpoints = 7`, no checkpoints saved yet. -/
def initStore (env : Env) : SessionState :=
  { metadata :=
      { character_id := env.character_id
      , created_at := env.timestampAt 0
      , status := .in_progress
      , mode := env.mode
      , current_wave := 1
      , current_checkpoint := 0
      , completed_checkpoints := 0
      , total_checkpoints := 7
      , regenerations := 0
      , completed_at := none
      , error := none }
  , kb := initKb env
  , checkpoints := []
  , final_profile := none }

/-- Program counter of the orchestrator coroutine.
`beforeWave w`: about to run the tasks of wave `w`.
`gating w i`: the tasks of wave `w` have completed and been merged; the
checkpoints of its first `i` agents have been created and approved; the
next step creates the checkpoint of agent `i` (0-based) or, if the wave
is exhausted, emits `wave_complete`.
`awaiting w k i`: checkpoint `k` (for agent `i - 1` of wave `w`) has been
created and the coroutine is blocked in `_wait_for_checkpoint_approval`.
`beforeFinal` / `awaitingFinal`: same for the final consolidation
checkpoint.  `finished` / `failed`: terminal. -/
inductive Phase where
  | beforeWave (w : Nat)
  | gating (w : Nat) (i : Nat)
  | awaiting (w : Nat) (k : Nat) (i : Nat)
  | beforeFinal
  | awaitingFinal (k : Nat)
  | finished
  | failed
deriving DecidableEq, Repr

/-- Full system state: the durable store, the events broadcast so far (in
emission order), and the orchestrator's program counter. -/
structure OrchState where
  store : SessionState
  events : List Event
  pc : Phase
deriving DecidableEq, Repr

/-- Initial state: store freshly created, no events, orchestrator about
to run wave 1 (the background task starts immediately after
`/api/character/start`). -/
def initState (env : Env) : OrchState :=
  { store := initStore env, events := [], pc := .beforeWave 1 }

/-- First raising task of a wave, with its error message, if any
(`asyncio.gather` propagates the first exception). -/
def firstError (env : Env) (w : Nat) : Option (String × String) :=
  ((waveAgents w).filterMap (fun a => (env.taskErr a).map (fun m => (a, m)))).head?

/-- `agent_completed` events of a wave, emitted in the order the tasks
happen to finish. -/
def completionEvents (env : Env) (w : Nat) : List Event :=
  (env.order w).map (fun a => .agent_completed a w (env.agentTime a))

/-- Merge a completed wave's outputs into the knowledge base in
task-definition order (`run_wave_N` steps 3-4: unpack the gathered
results, set each output field and agent status, save the KB). -/
def mergeWave (env : Env) (w : Nat) (kb : KnowledgeBase) : KnowledgeBase :=
  (waveAgents w).foldl
    (fun kb a => (kb.setTaskOutput a (env.results a).structured).setAgentStatus a "completed" w)
    kb

/-- The knowledge base after the first `w` waves have been merged. -/
def kbUpTo (env : Env) : Nat → KnowledgeBase
  | 0 => initKb env
  | m + 1 => mergeWave env (m + 1) (kbUpTo env m)

/-- Successor state of a successful wave run: emit `wave_started`, run
the tasks (opaque), emit their completion events, merge all outputs into
the KB and persist it, set `current_wave`; next, create the wave's
checkpoints one by one. -/
def doWaveOk (env : Env) (s : OrchState) (w : Nat) : OrchState :=
  { store :=
      { s.store with
          kb := mergeWave env w s.store.kb
        , metadata := { s.store.metadata with current_wave := w } }
  , events := s.events ++ Event.wave_started w (waveAgents w) :: completionEvents env w
  , pc := .gating w 0 }

/-- Successor state when a task of the wave raises: the wave is aborted,
the session is marked failed with the error recorded, and a single
`error` event is emitted whose message wraps the exception text — it has
no agent name (deep dive lines 435-443). -/
def doWaveErr (s : OrchState) (w : Nat) (msg : String) : OrchState :=
  { store :=
      { s.store with
          metadata := { s.store.metadata with status := .failed, error := some msg } }
  , events := s.events ++
      [ Event.wave_started w (waveAgents w)
      , Event.error ("Character development failed: " ++ msg) none ]
  , pc := .failed }

/-- Successor state of `_create_checkpoint` for agent `a` (index `i` of
wave `w`): allocate the next sequential number, save the record with
`status = awaiting_approval`, update `current_checkpoint`, emit
`checkpoint_ready`, then block in the approval wait. -/
def doCreate (env : Env) (s : OrchState) (w i : Nat) (a : String) : OrchState :=
  { store :=
      { s.store with
          checkpoints :=
            s.store.checkpoints ++ [mkCheckpoint env (s.store.checkpoints.length + 1) a w]
        , metadata :=
            { s.store.metadata with current_checkpoint := s.store.checkpoints.length + 1 } }
  , events := s.events ++
      [ Event.checkpoint_ready (s.store.checkpoints.length + 1) a
          (a ++ " analysis complete. Awaiting approval.") ]
  , pc := .awaiting w (s.store.checkpoints.length + 1) (i + 1) }

/-- Successor state when a wave's last checkpoint wait has returned: emit
`wave_complete` and move on to the next wave (or the final
consolidation after wave 3). -/
def doWaveComplete (s : OrchState) (w : Nat) : OrchState :=
  { s with
      events := s.events ++ [Event.wave_complete w (waveAgents w) (w + 1)]
    , pc := if w < 3 then .beforeWave (w + 1) else .beforeFinal }

/-- Successor state of `create_final_profile`: build the consolidated
profile from the full KB and wrap it in one last checkpoint (number 7,
agent `final_consolidation`, wave 4), then block awaiting its approval. -/
def doFinalCreate (env : Env) (s : OrchState) : OrchState :=
  { store :=
      { s.store with
          checkpoints :=
            s.store.checkpoints ++
              [mkCheckpoint env (s.store.checkpoints.length + 1) "final_consolidation" 4]
        , metadata :=
            { s.store.metadata with
                current_checkpoint := s.store.checkpoints.length + 1
              , current_wave := 4 } }
  , events := s.events ++
      [ Event.checkpoint_ready (s.store.checkpoints.length + 1) "final_consolidation"
          ("final_consolidation" ++ " analysis complete. Awaiting approval.") ]
  , pc := .awaitingFinal (s.store.checkpoints.length + 1) }

/-- Successor state once the final checkpoint's wait has returned:
`save_final_profile` writes the profile, sets `status = completed` and
`completed_at` (storage.py lines 228-240), and `character_complete` is
emitted. -/
def doComplete (env : Env) (s : OrchState) : OrchState :=
  { store :=
      { s.store with
          final_profile := some env.finalStructured
        , metadata :=
            { s.store.metadata with
                status := .completed
              , completed_at := some env.completedAt } }
  , events := s.events ++ [Event.character_complete s.store.metadata.character_id]
  , pc := .finished }

/-- One transition of the system: either the orchestrator coroutine makes
progress (its wait steps are enabled only when the durable counter has
reached the checkpoint number), or an external API call mutates the
store.  API calls are possible in every state — the endpoints perform no
validation against the orchestrator's position. -/
inductive Step (env : Env) : OrchState → OrchState → Prop where
  | waveOk (s : OrchState) (w : Nat) (hpc : s.pc = .beforeWave w)
      (herr : firstError env w = none) :
      Step env s (doWaveOk env s w)
  | waveErr (s : OrchState) (w : Nat) (a msg : String) (hpc : s.pc = .beforeWave w)
      (herr : firstError env w = some (a, msg)) :
      Step env s (doWaveErr s w msg)
  | create (s : OrchState) (w i : Nat) (a : String) (hpc : s.pc = .gating w i)
      (ha : (waveAgents w).get? i = some a) :
      Step env s (doCreate env s w i a)
  | approvedContinue (s : OrchState) (w k i : Nat) (hpc : s.pc = .awaiting w k i)
      (happ : k ≤ s.store.metadata.completed_checkpoints) :
      Step env s { s with pc := .gating w i }
  | waveDone (s : OrchState) (w : Nat) (hpc : s.pc = .gating w (waveAgents w).length) :
      Step env s (doWaveComplete s w)
  | finalCreate (s : OrchState) (hpc : s.pc = .beforeFinal) :
      Step env s (doFinalCreate env s)
  | finalApproved (s : OrchState) (k : Nat) (hpc : s.pc = .awaitingFinal k)
      (happ : k ≤ s.store.metadata.completed_checkpoints) :
      Step env s (doComplete env s)
  | apiApprove (s : OrchState) (n : Nat) :
      Step env s { s with store := approve_checkpoint s.store n }
  | apiRegenerate (s : OrchState) (a fb : String) :
      Step env s { s with store := regenerate_agent s.store a fb }
  | apiFeedback (s : OrchState) (n : Nat) (fb : String) :
      Step env s { s with store := (submit_feedback s.store n fb).1 }

/-- Reachability from the freshly created session. -/
def Reach (env : Env) (s : OrchState) : Prop :=
  Relation.ReflTransGen (Step env) (initState env) s

/-- The step `t ⟶ t'` is the moment the wait for checkpoint `k` returns:
the coroutine leaves the corresponding blocked phase. -/
def IsWaitExit (t t' : OrchState) (k : Nat) : Prop :=
  (∃ w i, t.pc = .awaiting w k i ∧ t'.pc = .gating w i) ∨
    (t.pc = .awaitingFinal k ∧ t'.pc = .finished)

/-- `WaitExitedBefore env s k`: somewhere earlier in the run that led to
`s`, the approval wait for checkpoint `k` returned, and at that moment
the durable counter had reached `k`. -/
def WaitExitedBefore (env : Env) (s : OrchState) (k : Nat) : Prop :=
  ∃ t t', Reach env t ∧ Step env t t' ∧ Relation.ReflTransGen (Step env) t' s ∧
    IsWaitExit t t' k ∧ k ≤ t.store.metadata.completed_checkpoints

/-- Phases from which the orchestrator goes on to create further
checkpoints with every previously created checkpoint's wait already
exited. -/
def CreateReady : Phase → Prop
  | .beforeWave _ => True
  | .gating _ _ => True
  | .beforeFinal => True
  | _ => False

/-- A concrete happy-path environment used by witnesses and
counterexamples: every task succeeds, and the tasks of every wave happen
to complete in *reverse* definition order. -/
def env0 : Env :=
  { results := fun a => { structured := "S:" ++ a, narrative := "N:" ++ a }
  , taskErr := fun _ => none
  , order := fun w => (waveAgents w).reverse
  , agentTime := fun _ => 3
  , timestampAt := fun n => "t" ++ toString n
  , finalStructured := "final-profile"
  , completedAt := "t-done"
  , mode := .balanced
  , character_id := "cid-0"
  , input_data := "entry-output"
  }

/-- A concrete environment in which the wave-2 task `voice_dialogue`
raises with message `"boom"`. -/
def env1 : Env :=
  { env0 with taskErr := fun a => if a = "voice_dialogue" then some "boom" else none }

/-- The happy-path environment with a different (empty) completion
order: the checkpoint plan cannot see the difference. -/
def envNoOrder : Env :=
  { env0 with order := fun _ => [] }

/-- Concrete happy-path run under `env0`: the states after each step.
`st0` is the fresh session. -/
def st0 : OrchState := initState env0

/-- After wave 1's tasks complete (in reverse order) and are merged. -/
def st1 : OrchState := doWaveOk env0 st0 1

/-- After checkpoint 1 (`personality`) is created. -/
def st2 : OrchState := doCreate env0 st1 1 0 "personality"

/-- After the external `approve(1)` API call. -/
def st3 : OrchState := { st2 with store := approve_checkpoint st2.store 1 }

/-- After the wait for checkpoint 1 returns. -/
def st4 : OrchState := { st3 with pc := .gating 1 1 }

/-- After checkpoint 2 (`backstory_motivation`) is created. -/
def st5 : OrchState := doCreate env0 st4 1 1 "backstory_motivation"

/-- After the external `approve(2)` API call. -/
def st6 : OrchState := { st5 with store := approve_checkpoint st5.store 2 }

/-- After the wait for checkpoint 2 returns. -/
def st7 : OrchState := { st6 with pc := .gating 1 2 }

/-- After `wave_complete` for wave 1. -/
def st8 : OrchState := doWaveComplete st7 1

/-- After wave 2's tasks complete and are merged. -/
def st9 : OrchState := doWaveOk env0 st8 2

/-- After checkpoint 3 (`voice_dialogue`) is created — wave-1 checkpoints
still persisted with `status = awaiting_approval`. -/
def st10 : OrchState := doCreate env0 st9 2 0 "voice_dialogue"

/-- Concrete failing run under `env1`: wave 1 as in the happy path. -/
def u1 : OrchState := doWaveOk env1 (initState env1) 1

/-- Checkpoint 1 created. -/
def u2 : OrchState := doCreate env1 u1 1 0 "personality"

/-- `approve(1)` received. -/
def u3 : OrchState := { u2 with store := approve_checkpoint u2.store 1 }

/-- Wait for checkpoint 1 returns. -/
def u4 : OrchState := { u3 with pc := .gating 1 1 }

/-- Checkpoint 2 created. -/
def u5 : OrchState := doCreate env1 u4 1 1 "backstory_motivation"

/-- `approve(2)` received. -/
def u6 : OrchState := { u5 with store := approve_checkpoint u5.store 2 }

/-- Wait for checkpoint 2 returns. -/
def u7 : OrchState := { u6 with pc := .gating 1 2 }

/-- `wave_complete` for wave 1; about to run wave 2. -/
def u8 : OrchState := doWaveComplete u7 1

/-- Wave 2 aborts: `voice_dialogue` raised `"boom"`. -/
def u9 : OrchState := doWaveErr u8 2 "boom"

/-- A concrete fresh session store (`completed_checkpoints = 0`). -/
def sampleStore : SessionState := initStore env0

/-- A concrete trace of metadata snapshots for the wait loop: at
iteration `i` the durable counter reads `i`. -/
def reads0 : Nat → SessionMetadata :=
  fun i => { sampleStore.metadata with completed_checkpoints := i }

/-- Wave of the persisted checkpoint numbered `n`, if present. -/
def checkpointWaveAt (s : SessionState) (n : Nat) : Option Nat :=
  (get_checkpoint s n).map (fun cp => cp.metadata.wave)

/-- Status of the persisted checkpoint numbered `n`, if present. -/
def checkpointStatusAt (s : SessionState) (n : Nat) : Option CheckpointStatus :=
  (get_checkpoint s n).map (fun cp => cp.status)

/-- Whether an event is an `error` event that names an agent. -/
def isErrorWithAgent : Event → Bool
  | .error _ (some _) => true
  | _ => false

/-- External API operations, as invocable by approvers (§ session /
approval API): approve, reject-with-feedback via the HTTP endpoint,
the regeneration helper, and the terminal rejection flow. -/
inductive ApiOp where
  | approve (n : Nat)
  | feedback (n : Nat) (fb : String)
  | regenerate (a : String) (fb : String)
  | rejectTerminal (n : Nat) (fb : String)
deriving DecidableEq, Repr

/-- Apply one external API operation to the durable store. -/
def applyOp (s : SessionState) : ApiOp → SessionState
  | .approve n => approve_checkpoint s n
  | .feedback n fb => (submit_feedback s n fb).1
  | .regenerate a fb => regenerate_agent s a fb
  | .rejectTerminal n fb => reject_checkpoint_terminal s n fb

/-- Apply a sequence of external API operations. -/
def applyOps (s : SessionState) (ops : List ApiOp) : SessionState :=
  ops.foldl applyOp s

/-- An operation is in-order at store `s` when any approval it carries is
for a number at least the current counter (the code never checks this). -/
def InOrder (s : SessionState) : ApiOp → Prop
  | .approve n => s.metadata.completed_checkpoints ≤ n
  | .rejectTerminal n _ => s.metadata.completed_checkpoints ≤ n
  | _ => True

/-- Structural invariant tying the orchestrator's program counter to the
durable store: which prefix of the checkpoint plan has been persisted and
how many waves have been merged into the knowledge base. -/
def PhaseInv (env : Env) (st : SessionState) : Phase → Prop
  | .beforeWave w =>
      (w = 1 ∨ w = 2 ∨ w = 3) ∧ st.checkpoints.length = planCount w ∧
        st.kb = kbUpTo env (w - 1)
  | .gating w i =>
      (w = 1 ∨ w = 2 ∨ w = 3) ∧ i ≤ (waveAgents w).length ∧
        st.checkpoints.length = planCount w + i ∧ st.kb = kbUpTo env w
  | .awaiting w k i =>
      (w = 1 ∨ w = 2 ∨ w = 3) ∧ 1 ≤ i ∧ i ≤ (waveAgents w).length ∧
        st.checkpoints.length = planCount w + i ∧ k = st.checkpoints.length ∧
        st.kb = kbUpTo env w
  | .beforeFinal => st.checkpoints.length = 6 ∧ st.kb = kbUpTo env 3
  | .awaitingFinal k => k = 7 ∧ st.checkpoints.length = 7 ∧ st.kb = kbUpTo env 3
  | .finished => st.checkpoints.length = 7 ∧ st.kb = kbUpTo env 3
  | .failed => ∃ m, m ≤ 3 ∧ st.kb = kbUpTo env m

/-- Full reachability invariant: the persisted checkpoints are always the
plan's prefix (created in definition order), the session is marked failed
exactly when the orchestrator aborted, and the program counter matches
the store. -/
def SysInv (env : Env) (s : OrchState) : Prop :=
  s.store.checkpoints = (checkpointPlan env).take s.store.checkpoints.length ∧
    (s.store.metadata.status = SessionStatus.failed ↔ s.pc = Phase.failed) ∧
    PhaseInv env s.store s.pc

theorem checkpointPlan_length (env : Env) : (checkpointPlan env).length = 7 := rfl

/-- Whenever `(waveAgents w).get? i` hits an agent, that agent and wave
agree with the checkpoint plan at position `planCount w + i`, and
appending its checkpoint extends the plan prefix by one. -/
theorem plan_snoc (env : Env) (w i : Nat) (a : String) (hw : w = 1 ∨ w = 2 ∨ w = 3)
    (ha : (waveAgents w).get? i = some a) :
    i < (waveAgents w).length ∧ planCount w + i + 1 ≤ 7 ∧
      (checkpointPlan env).take (planCount w + i) ++
          [mkCheckpoint env (planCount w + i + 1) a w]
        = (checkpointPlan env).take (planCount w + i + 1) := by
  rcases hw with rfl | rfl | rfl
  · match i, ha with
    | 0, ha =>
        simp only [waveAgents, List.get?] at ha
        cases ha
        exact ⟨by decide, by decide, rfl⟩
    | 1, ha =>
        simp only [waveAgents, List.get?] at ha
        cases ha
        exact ⟨by decide, by decide, rfl⟩
    | n + 2, ha => simp [waveAgents, List.get?] at ha
  · match i, ha with
    | 0, ha =>
        simp only [waveAgents, List.get?] at ha
        cases ha
        exact ⟨by decide, by decide, rfl⟩
    | 1, ha =>
        simp only [waveAgents, List.get?] at ha
        cases ha
        exact ⟨by decide, by decide, rfl⟩
    | 2, ha =>
        simp only [waveAgents, List.get?] at ha
        cases ha
        exact ⟨by decide, by decide, rfl⟩
    | n + 3, ha => simp [waveAgents, List.get?] at ha
  · match i, ha with
    | 0, ha =>
        simp only [waveAgents, List.get?] at ha
        cases ha
        exact ⟨by decide, by decide, rfl⟩
    | n + 1, ha => simp [waveAgents, List.get?] at ha

/-- `PhaseInv` only inspects the checkpoint list and the knowledge base,
so it transports along store updates that keep both. -/
theorem PhaseInv_congr (env : Env) (st st' : SessionState) (p : Phase)
    (hc : st'.checkpoints = st.checkpoints) (hk : st'.kb = st.kb)
    (h : PhaseInv env st p) : PhaseInv env st' p := by
  cases p <;> simpa only [PhaseInv, hc, hk] using h

/-- The structural reachability invariant: in every reachable state the
persisted checkpoints form the definition-order prefix of the checkpoint
plan, the failed status marker coincides with the aborted program
counter, and the program counter matches the store. -/
theorem structInv (env : Env) (s : OrchState) (h : Reach env s) : SysInv env s := by
  unfold Reach at h
  induction h with
  | refl =>
      refine ⟨rfl, ?_, ?_⟩
      · simp [initState, initStore]
      · exact ⟨Or.inl rfl, rfl, rfl⟩
  | tail hr hstep ih =>
      rename_i b c
      obtain ⟨hpre, hstat, hph⟩ := ih
      cases hstep with
      | waveOk w hpc herr =>
          rw [hpc] at hph
          simp only [PhaseInv] at hph
          obtain ⟨hw, hlen, hkb⟩ := hph
          have hns : b.store.metadata.status ≠ SessionStatus.failed := by
            intro hf
            have := hstat.mp hf
            rw [hpc] at this
            exact Phase.noConfusion this
          refine ⟨hpre, ?_, ?_⟩
          · constructor
            · intro hf; exact absurd hf hns
            · intro hf; exact Phase.noConfusion hf
          · simp only [doWaveOk, PhaseInv]
            refine ⟨hw, Nat.zero_le _, by simpa using hlen, ?_⟩
            rcases hw with rfl | rfl | rfl <;> simp [kbUpTo, hkb]
      | waveErr w a msg hpc herr =>
          rw [hpc] at hph
          simp only [PhaseInv] at hph
          obtain ⟨hw, hlen, hkb⟩ := hph
          refine ⟨hpre, by simp [doWaveErr], ?_⟩
          simp only [doWaveErr, PhaseInv]
          exact ⟨w - 1, by omega, hkb⟩
      | create w i a hpc ha =>
          rw [hpc] at hph
          simp only [PhaseInv] at hph
          obtain ⟨hw, hi, hlen, hkb⟩ := hph
          obtain ⟨hilt, hb7, hsnoc⟩ := plan_snoc env w i a hw ha
          have hns : b.store.metadata.status ≠ SessionStatus.failed := by
            intro hf
            have := hstat.mp hf
            rw [hpc] at this
            exact Phase.noConfusion this
          have hpre' : b.store.checkpoints = (checkpointPlan env).take (planCount w + i) := by
            rw [hpre, hlen]
          refine ⟨?_, ?_, ?_⟩
          · simp only [doCreate, List.length_append, List.length_cons, List.length_nil]
            rw [hpre']
            have htk : ((checkpointPlan env).take (planCount w + i)).length
                = planCount w + i := by
              simp only [List.length_take, checkpointPlan_length]
              omega
            rw [htk]
            simpa using hsnoc
          · constructor
            · intro hf; exact absurd hf hns
            · intro hf; exact Phase.noConfusion hf
          · simp only [doCreate, PhaseInv, List.length_append, List.length_cons,
              List.length_nil]
            refine ⟨hw, ?_, ?_, ?_, ?_, hkb⟩ <;> first | trivial | omega
      | approvedContinue w k i hpc happ =>
          rw [hpc] at hph
          simp only [PhaseInv] at hph
          obtain ⟨hw, hi1, hi2, hlen, hk, hkb⟩ := hph
          have hns : b.store.metadata.status ≠ SessionStatus.failed := by
            intro hf
            have := hstat.mp hf
            rw [hpc] at this
            exact Phase.noConfusion this
          refine ⟨hpre, ?_, ?_⟩
          · constructor
            · intro hf; exact absurd hf hns
            · intro hf; exact Phase.noConfusion hf
          · simp only [PhaseInv]
            exact ⟨hw, hi2, hlen, hkb⟩
      | waveDone w hpc =>
          rw [hpc] at hph
          simp only [PhaseInv] at hph
          obtain ⟨hw, hi, hlen, hkb⟩ := hph
          have hns : b.store.metadata.status ≠ SessionStatus.failed := by
            intro hf
            have := hstat.mp hf
            rw [hpc] at this
            exact Phase.noConfusion this
          refine ⟨hpre, ?_, ?_⟩
          · simp only [doWaveComplete]
            constructor
            · intro hf; exact absurd hf hns
            · intro hf
              rcases hw with rfl | rfl | rfl <;> simp at hf
          · rcases hw with rfl | rfl | rfl <;>
              simp only [doWaveComplete, PhaseInv] <;> norm_num
            · exact ⟨by simpa [waveAgents, planCount] using hlen, by simpa [kbUpTo] using hkb⟩
            · exact ⟨by simpa [waveAgents, planCount] using hlen, by simpa [kbUpTo] using hkb⟩
            · exact ⟨by simpa [waveAgents, planCount] using hlen, by simpa [kbUpTo] using hkb⟩
      | finalCreate hpc =>
          rw [hpc] at hph
          simp only [PhaseInv] at hph
          obtain ⟨hlen, hkb⟩ := hph
          have hns : b.store.metadata.status ≠ SessionStatus.failed := by
            intro hf
            have := hstat.mp hf
            rw [hpc] at this
            exact Phase.noConfusion this
          have hpre' : b.store.checkpoints = (checkpointPlan env).take 6 := by
            rw [hpre, hlen]
          refine ⟨?_, ?_, ?_⟩
          · simp only [doFinalCreate, List.length_append, List.length_cons, List.length_nil]
            rw [hpre']
            rfl
          · constructor
            · intro hf; exact absurd hf hns
            · intro hf; exact Phase.noConfusion hf
          · simp only [doFinalCreate, PhaseInv, List.length_append, List.length_cons,
              List.length_nil]
            exact ⟨by omega, by omega, hkb⟩
      | finalApproved k hpc happ =>
          rw [hpc] at hph
          simp only [PhaseInv] at hph
          obtain ⟨hk, hlen, hkb⟩ := hph
          refine ⟨hpre, ?_, ?_⟩
          · simp only [doComplete]
            constructor
            · intro hf; exact SessionStatus.noConfusion hf
            · intro hf; exact Phase.noConfusion hf
          · simp only [doComplete, PhaseInv]
            exact ⟨hlen, hkb⟩
      | apiApprove n =>
          exact ⟨hpre, hstat, PhaseInv_congr env b.store _ b.pc rfl rfl hph⟩
      | apiRegenerate a fb =>
          exact ⟨hpre, hstat, PhaseInv_congr env b.store _ b.pc rfl rfl hph⟩
      | apiFeedback n fb =>
          exact ⟨hpre, hstat, PhaseInv_congr env b.store _ b.pc rfl rfl hph⟩

/-- Temporal invariant: in every reachable state, for every checkpoint
`k` that is no longer the last created one, the approval wait for `k`
returned at some earlier step of the run — and at that moment the
durable counter had reached `k`.  Moreover, in every phase from which the
orchestrator goes on to create a further checkpoint, this also holds for
the last created checkpoint. -/
theorem temporalInv (env : Env) (s : OrchState) (h : Reach env s) :
    (∀ k, 1 ≤ k → k < s.store.checkpoints.length → WaitExitedBefore env s k) ∧
      (CreateReady s.pc → ∀ k, 1 ≤ k → k ≤ s.store.checkpoints.length →
        WaitExitedBefore env s k) := by
  unfold Reach at h
  induction h with
  | refl =>
      constructor
      · intro k hk1 hk2
        simp [initState, initStore] at hk2
      · intro _ k hk1 hk2
        simp [initState, initStore] at hk2
        omega
  | tail hr hstep ih =>
      rename_i b c
      have hext : ∀ k, WaitExitedBefore env b k → WaitExitedBefore env c k := by
        intro k hweb
        obtain ⟨t, t', h1, h2, h3, h4, h5⟩ := hweb
        exact ⟨t, t', h1, h2, h3.tail hstep, h4, h5⟩
      cases hstep with
      | waveOk w hpc herr =>
          have hcr : CreateReady b.pc := by rw [hpc]; trivial
          constructor
          · intro k hk1 hk2
            have hk2' : k < b.store.checkpoints.length := hk2
            exact hext k (ih.2 hcr k hk1 (Nat.le_of_lt hk2'))
          · intro _ k hk1 hk2
            have hk2' : k ≤ b.store.checkpoints.length := hk2
            exact hext k (ih.2 hcr k hk1 hk2')
      | waveErr w a msg hpc herr =>
          have hcr : CreateReady b.pc := by rw [hpc]; trivial
          constructor
          · intro k hk1 hk2
            have hk2' : k < b.store.checkpoints.length := hk2
            exact hext k (ih.2 hcr k hk1 (Nat.le_of_lt hk2'))
          · intro hcr' k hk1 hk2
            simp [doWaveErr, CreateReady] at hcr'
      | create w i a hpc ha =>
          have hcr : CreateReady b.pc := by rw [hpc]; trivial
          have hlen : (doCreate env b w i a).store.checkpoints.length
              = b.store.checkpoints.length + 1 := by
            simp [doCreate]
          constructor
          · intro k hk1 hk2
            rw [hlen] at hk2
            exact hext k (ih.2 hcr k hk1 (by omega))
          · intro hcr' k hk1 hk2
            simp [doCreate, CreateReady] at hcr'
      | approvedContinue w k₀ i hpc happ =>
          obtain ⟨hpre, hstat, hph⟩ := structInv env b hr
          rw [hpc] at hph
          simp only [PhaseInv] at hph
          obtain ⟨hw, hi1, hi2, hlen, hk, hkb⟩ := hph
          constructor
          · intro k hk1 hk2
            have hk2' : k < b.store.checkpoints.length := hk2
            exact hext k (ih.1 k hk1 hk2')
          · intro _ k hk1 hk2
            have hk2' : k ≤ b.store.checkpoints.length := hk2
            rcases Nat.lt_or_ge k b.store.checkpoints.length with hlt | hge
            · exact hext k (ih.1 k hk1 hlt)
            · have hkeq : k = k₀ := by omega
              subst hkeq
              exact ⟨b, _, hr, Step.approvedContinue b w k i hpc happ,
                Relation.ReflTransGen.refl, Or.inl ⟨w, i, hpc, rfl⟩, happ⟩
      | waveDone w hpc =>
          have hcr : CreateReady b.pc := by rw [hpc]; trivial
          constructor
          · intro k hk1 hk2
            have hk2' : k < b.store.checkpoints.length := hk2
            exact hext k (ih.2 hcr k hk1 (Nat.le_of_lt hk2'))
          · intro _ k hk1 hk2
            have hk2' : k ≤ b.store.checkpoints.length := hk2
            exact hext k (ih.2 hcr k hk1 hk2')
      | finalCreate hpc =>
          have hcr : CreateReady b.pc := by rw [hpc]; trivial
          have hlen : (doFinalCreate env b).store.checkpoints.length
              = b.store.checkpoints.length + 1 := by
            simp [doFinalCreate]
          constructor
          · intro k hk1 hk2
            rw [hlen] at hk2
            exact hext k (ih.2 hcr k hk1 (by omega))
          · intro hcr' k hk1 hk2
            simp [doFinalCreate, CreateReady] at hcr'
      | finalApproved k₀ hpc happ =>
          constructor
          · intro k hk1 hk2
            have hk2' : k < b.store.checkpoints.length := hk2
            exact hext k (ih.1 k hk1 hk2')
          · intro hcr' k hk1 hk2
            simp [doComplete, CreateReady] at hcr'
      | apiApprove n =>
          constructor
          · intro k hk1 hk2
            have hk2' : k < b.store.checkpoints.length := hk2
            exact hext k (ih.1 k hk1 hk2')
          · intro hcr' k hk1 hk2
            have hcr : CreateReady b.pc := hcr'
            have hk2' : k ≤ b.store.checkpoints.length := hk2
            exact hext k (ih.2 hcr k hk1 hk2')
      | apiRegenerate a fb =>
          constructor
          · intro k hk1 hk2
            have hk2' : k < b.store.checkpoints.length := hk2
            exact hext k (ih.1 k hk1 hk2')
          · intro hcr' k hk1 hk2
            have hcr : CreateReady b.pc := hcr'
            have hk2' : k ≤ b.store.checkpoints.length := hk2
            exact hext k (ih.2 hcr k hk1 hk2')
      | apiFeedback n fb =>
          constructor
          · intro k hk1 hk2
            have hk2' : k < b.store.checkpoints.length := hk2
            exact hext k (ih.1 k hk1 hk2')
          · intro hcr' k hk1 hk2
            have hcr : CreateReady b.pc := hcr'
            have hk2' : k ≤ b.store.checkpoints.length := hk2
            exact hext k (ih.2 hcr k hk1 hk2')

theorem plan_get_char (env : Env) (j : Nat) (hj : j < 7) :
    (checkpointPlan env)[j]?
      = some (mkCheckpoint env (j + 1) (agentOfNum (j + 1)) (waveOfNum (j + 1))) := by
  interval_cases j <;> rfl

/-- Every checkpoint ever persisted is the plan checkpoint of its number:
created in definition order with the agent and wave the plan prescribes,
with a number between 1 and the count of created checkpoints. -/
theorem mem_checkpoint_char (env : Env) (s : OrchState) (h : Reach env s)
    (cp : Checkpoint) (hm : cp ∈ s.store.checkpoints) :
    ∃ n, 1 ≤ n ∧ n ≤ 7 ∧ n ≤ s.store.checkpoints.length ∧
      cp = mkCheckpoint env n (agentOfNum n) (waveOfNum n) := by
  have hpre := (structInv env s h).1
  rw [hpre] at hm
  obtain ⟨j, hj⟩ := List.mem_iff_get?.mp hm
  have hjlt : j < ((checkpointPlan env).take s.store.checkpoints.length).length :=
    (List.get?_eq_some.mp hj).1
  have hjlt2 : j < s.store.checkpoints.length := by
    simp only [List.length_take] at hjlt
    omega
  have hjlt7 : j < 7 := by
    simp only [List.length_take, checkpointPlan_length] at hjlt
    omega
  rw [List.get?_eq_getElem?] at hj
  rw [List.getElem?_take_of_lt hjlt2] at hj
  rw [plan_get_char env j hjlt7] at hj
  refine ⟨j + 1, by omega, by omega, by omega, ?_⟩
  exact (Option.some_injective _ hj).symm

/-- Every `error` event ever emitted has no agent name attached (the
only emission site builds the event from the exception message alone,
deep dive lines 435-443). -/
theorem error_events_have_no_agent (env : Env) (s : OrchState) (h : Reach env s) :
    ∀ m ag, Event.error m ag ∈ s.events → ag = none := by
  unfold Reach at h
  induction h with
  | refl =>
      intro m ag hm
      simp [initState] at hm
  | tail hr hstep ih =>
      rename_i b c
      intro m ag hm
      cases hstep with
      | waveOk w hpc herr =>
          simp only [doWaveOk, List.mem_append, List.mem_cons] at hm
          rcases hm with hm | hm | hm
          · exact ih m ag hm
          · exact Event.noConfusion hm
          · simp only [completionEvents, List.mem_map] at hm
            obtain ⟨x, _, hx⟩ := hm
            exact Event.noConfusion hx
      | waveErr w a msg hpc herr =>
          simp only [doWaveErr, List.mem_append, List.mem_cons, List.not_mem_nil,
            or_false, Event.error.injEq] at hm
          rcases hm with hm | hm | hm
          · exact ih m ag hm
          · exact Event.noConfusion hm
          · exact hm.2
      | create w i a hpc ha =>
          simp only [doCreate, List.mem_append, List.mem_singleton] at hm
          rcases hm with hm | hm
          · exact ih m ag hm
          · exact Event.noConfusion hm
      | approvedContinue w k i hpc happ => exact ih m ag hm
      | waveDone w hpc =>
          simp only [doWaveComplete, List.mem_append, List.mem_singleton] at hm
          rcases hm with hm | hm
          · exact ih m ag hm
          · exact Event.noConfusion hm
      | finalCreate hpc =>
          simp only [doFinalCreate, List.mem_append, List.mem_singleton] at hm
          rcases hm with hm | hm
          · exact ih m ag hm
          · exact Event.noConfusion hm
      | finalApproved k hpc happ =>
          simp only [doComplete, List.mem_append, List.mem_singleton] at hm
          rcases hm with hm | hm
          · exact ih m ag hm
          · exact Event.noConfusion hm
      | apiApprove n => exact ih m ag hm
      | apiRegenerate a fb => exact ih m ag hm
      | apiFeedback n fb => exact ih m ag hm

/-- Once the orchestrator has aborted, only external API calls remain
possible; they touch only scalar metadata fields, so the program counter,
the persisted checkpoints, the knowledge base, the final profile and the
failed status are all stable from then on. -/
theorem failed_stable (env : Env) (s t : OrchState)
    (hf : s.pc = Phase.failed) (h : Relation.ReflTransGen (Step env) s t) :
    t.pc = Phase.failed ∧ t.store.checkpoints = s.store.checkpoints ∧
      t.store.kb = s.store.kb ∧ t.store.final_profile = s.store.final_profile ∧
      t.store.metadata.status = s.store.metadata.status ∧
      t.events = s.events := by
  induction h with
  | refl => exact ⟨hf, rfl, rfl, rfl, rfl, rfl⟩
  | tail hr hstep ih =>
      rename_i b c
      obtain ⟨hpcb, hcb, hkb, hfb, hsb, heb⟩ := ih
      cases hstep with
      | waveOk w hpc herr => rw [hpcb] at hpc; exact Phase.noConfusion hpc
      | waveErr w a msg hpc herr => rw [hpcb] at hpc; exact Phase.noConfusion hpc
      | create w i a hpc ha => rw [hpcb] at hpc; exact Phase.noConfusion hpc
      | approvedContinue w k i hpc happ => rw [hpcb] at hpc; exact Phase.noConfusion hpc
      | waveDone w hpc => rw [hpcb] at hpc; exact Phase.noConfusion hpc
      | finalCreate hpc => rw [hpcb] at hpc; exact Phase.noConfusion hpc
      | finalApproved k hpc happ => rw [hpcb] at hpc; exact Phase.noConfusion hpc
      | apiApprove n => exact ⟨hpcb, hcb, hkb, hfb, hsb, heb⟩
      | apiRegenerate a fb => exact ⟨hpcb, hcb, hkb, hfb, hsb, heb⟩
      | apiFeedback n fb => exact ⟨hpcb, hcb, hkb, hfb, hsb, heb⟩

theorem reach_st1 : Reach env0 st1 :=
  Relation.ReflTransGen.single (Step.waveOk st0 1 rfl rfl)

theorem reach_st2 : Reach env0 st2 :=
  Relation.ReflTransGen.tail reach_st1 (Step.create st1 1 0 "personality" rfl rfl)

theorem reach_st3 : Reach env0 st3 :=
  Relation.ReflTransGen.tail reach_st2 (Step.apiApprove st2 1)

theorem reach_st4 : Reach env0 st4 :=
  Relation.ReflTransGen.tail reach_st3 (Step.approvedContinue st3 1 1 1 rfl (by decide))

theorem reach_st5 : Reach env0 st5 :=
  Relation.ReflTransGen.tail reach_st4 (Step.create st4 1 1 "backstory_motivation" rfl rfl)

theorem reach_st6 : Reach env0 st6 :=
  Relation.ReflTransGen.tail reach_st5 (Step.apiApprove st5 2)

theorem reach_st7 : Reach env0 st7 :=
  Relation.ReflTransGen.tail reach_st6 (Step.approvedContinue st6 1 2 2 rfl (by decide))

theorem reach_st8 : Reach env0 st8 :=
  Relation.ReflTransGen.tail reach_st7 (Step.waveDone st7 1 rfl)

theorem reach_st9 : Reach env0 st9 :=
  Relation.ReflTransGen.tail reach_st8 (Step.waveOk st8 2 rfl rfl)

theorem reach_st10 : Reach env0 st10 :=
  Relation.ReflTransGen.tail reach_st9 (Step.create st9 2 0 "voice_dialogue" rfl rfl)

theorem reach_u1 : Reach env1 u1 :=
  Relation.ReflTransGen.single (Step.waveOk (initState env1) 1 rfl rfl)

theorem reach_u2 : Reach env1 u2 :=
  Relation.ReflTransGen.tail reach_u1 (Step.create u1 1 0 "personality" rfl rfl)

theorem reach_u3 : Reach env1 u3 :=
  Relation.ReflTransGen.tail reach_u2 (Step.apiApprove u2 1)

theorem reach_u4 : Reach env1 u4 :=
  Relation.ReflTransGen.tail reach_u3 (Step.approvedContinue u3 1 1 1 rfl (by decide))

theorem reach_u5 : Reach env1 u5 :=
  Relation.ReflTransGen.tail reach_u4 (Step.create u4 1 1 "backstory_motivation" rfl rfl)

theorem reach_u6 : Reach env1 u6 :=
  Relation.ReflTransGen.tail reach_u5 (Step.apiApprove u5 2)

theorem reach_u7 : Reach env1 u7 :=
  Relation.ReflTransGen.tail reach_u6 (Step.approvedContinue u6 1 2 2 rfl (by decide))

theorem reach_u8 : Reach env1 u8 :=
  Relation.ReflTransGen.tail reach_u7 (Step.waveDone u7 1 rfl)

theorem reach_u9 : Reach env1 u9 :=
  Relation.ReflTransGen.tail reach_u8 (Step.waveErr u8 2 "voice_dialogue" "boom" rfl rfl)

/-- If the poll loop breaks at iteration `i`, the metadata read at `i`
satisfies the condition and every earlier read (from the start index on)
did not: the loop really re-reads the durable state each iteration and
returns at the first satisfying read. -/
theorem wait_poll_first (reads : Nat → SessionMetadata) (n : Nat) :
    ∀ fuel start i, wait_poll reads n fuel start = some i →
      start ≤ i ∧ n ≤ (reads i).completed_checkpoints ∧
        ∀ j, start ≤ j → j < i → (reads j).completed_checkpoints < n := by
  intro fuel
  induction fuel with
  | zero =>
      intro start i h
      simp [wait_poll] at h
  | succ fuel ih =>
      intro start i h
      by_cases hc : n ≤ (reads start).completed_checkpoints
      · rw [wait_poll, if_pos hc] at h
        cases h
        exact ⟨Nat.le_refl _, hc, fun j hj1 hj2 => absurd (Nat.lt_of_le_of_lt hj1 hj2)
          (Nat.lt_irrefl _)⟩
      · rw [wait_poll, if_neg hc] at h
        obtain ⟨h1, h2, h3⟩ := ih (start + 1) i h
        refine ⟨by omega, h2, ?_⟩
        intro j hj1 hj2
        rcases Nat.eq_or_lt_of_le hj1 with rfl | hlt
        · exact Nat.lt_of_not_le hc
        · exact h3 j (by omega) hj2

/-- As soon as some read satisfies the condition, the loop returns at
that read or an earlier satisfying one (given enough fuel to get there). -/
theorem wait_poll_returns (reads : Nat → SessionMetadata) (n : Nat) :
    ∀ fuel start i, start ≤ i → i < start + fuel →
      n ≤ (reads i).completed_checkpoints →
      ∃ j, start ≤ j ∧ j ≤ i ∧ wait_poll reads n fuel start = some j := by
  intro fuel
  induction fuel with
  | zero =>
      intro start i h1 h2 h3
      omega
  | succ fuel ih =>
      intro start i h1 h2 h3
      by_cases hc : n ≤ (reads start).completed_checkpoints
      · exact ⟨start, Nat.le_refl _, h1, by rw [wait_poll, if_pos hc]⟩
      · have hne : start ≠ i := by
          rintro rfl
          exact hc h3
        obtain ⟨j, hj1, hj2, hj3⟩ := ih (start + 1) i (by omega) (by omega) h3
        exact ⟨j, by omega, hj2, by rw [wait_poll, if_neg hc]; exact hj3⟩

/-- If approval never arrives, the loop never breaks, no matter how long
it runs: the wait has no timeout. -/
theorem wait_poll_no_timeout (reads : Nat → SessionMetadata) (n : Nat)
    (hall : ∀ i, (reads i).completed_checkpoints < n) :
    ∀ fuel start, wait_poll reads n fuel start = none := by
  intro fuel
  induction fuel with
  | zero => intro start; rfl
  | succ fuel ih =>
      intro start
      rw [wait_poll, if_neg (by have := hall start; omega)]
      exact ih (start + 1)

/-- C1: for every session, checkpoint `N` is never created before
checkpoint `N - 1` has been approved, and checkpoints are created and
numbered in the tasks' fixed definition order, not completion order.
Formally, in every reachable state: (1) the persisted checkpoints are
exactly the definition-order plan prefix; (2) the plan is independent of
the order in which the tasks of a wave complete (`env.order` influences
only `agent_completed` events); and (3) whenever checkpoint `k + 1` has
been created, the approval wait for checkpoint `k` returned at an
earlier step of the run, at a moment when the durable approval counter
had already reached `k` — which, by the session's own bookkeeping, is
what approval of checkpoint `k` means. -/
theorem c1_sequential_checkpoint_creation (env : Env) (s : OrchState) (h : Reach env s) :
    s.store.checkpoints = (checkpointPlan env).take s.store.checkpoints.length ∧
      (∀ o, checkpointPlan { env with order := o } = checkpointPlan env) ∧
      (∀ k, 1 ≤ k → k < s.store.checkpoints.length → WaitExitedBefore env s k) :=
  ⟨(structInv env s h).1, fun o => rfl, (temporalInv env s h).1⟩

/-- C1 witness: under `env0` the wave-1 tasks complete in reverse
definition order, yet after both checkpoints of wave 1 exist they are the
definition-order plan prefix, and the wait for checkpoint 1 exited before
checkpoint 2 was created. -/
theorem c1_witness :
    st5.store.checkpoints = (checkpointPlan env0).take st5.store.checkpoints.length ∧
      checkpointPlan envNoOrder = checkpointPlan env0 ∧
      WaitExitedBefore env0 st5 1 :=
  ⟨(c1_sequential_checkpoint_creation env0 st5 reach_st5).1,
    (c1_sequential_checkpoint_creation env0 st5 reach_st5).2.1 envNoOrder.order,
    (c1_sequential_checkpoint_creation env0 st5 reach_st5).2.2 1 (by decide) (by decide)⟩

/-- C2 counterexample: with `approved_through = 0` and `k = 5` (so
`approved_through < k - 1`), the approve operation does not fail with any
error: it succeeds, sets the counter to 5, and thereby changes the
session state — contradicting "fails with an OutOfOrderApproval error and
leaves all session state unchanged". -/
theorem c2_counterexample :
    sampleStore.metadata.completed_checkpoints < 5 - 1 ∧
      (approve_checkpoint sampleStore 5).metadata.completed_checkpoints = 5 ∧
      approve_checkpoint sampleStore 5 ≠ sampleStore := by
  refine ⟨by decide, rfl, ?_⟩
  intro hcon
  have h5 := congrArg (fun st => st.metadata.completed_checkpoints) hcon
  simp [approve_checkpoint, sampleStore, initStore] at h5

/-- C2 amended: the approve operation performs no sequencing validation
at all: for every checkpoint number `k`, even when
`approved_through < k - 1`, it succeeds, overwrites
`completed_checkpoints` with `k`, and leaves every other component of the
session state unchanged; no `OutOfOrderApproval` rejection exists in the
code. -/
theorem c2_amended_approve_never_rejects (s : SessionState) (k : Nat)
    (hout : s.metadata.completed_checkpoints < k - 1) :
    (approve_checkpoint s k).metadata.completed_checkpoints = k ∧
      (approve_checkpoint s k).checkpoints = s.checkpoints ∧
      (approve_checkpoint s k).kb = s.kb ∧
      (approve_checkpoint s k).final_profile = s.final_profile ∧
      (approve_checkpoint s k).metadata.status = s.metadata.status ∧
      (approve_checkpoint s k).metadata.regenerations = s.metadata.regenerations :=
  ⟨rfl, rfl, rfl, rfl, rfl, rfl⟩

/-- C2 witness: the amended statement at the fresh store and `k = 5`. -/
theorem c2_witness :
    (approve_checkpoint sampleStore 5).metadata.completed_checkpoints = 5 ∧
      (approve_checkpoint sampleStore 5).checkpoints = sampleStore.checkpoints ∧
      (approve_checkpoint sampleStore 5).kb = sampleStore.kb ∧
      (approve_checkpoint sampleStore 5).final_profile = sampleStore.final_profile ∧
      (approve_checkpoint sampleStore 5).metadata.status = sampleStore.metadata.status ∧
      (approve_checkpoint sampleStore 5).metadata.regenerations
        = sampleStore.metadata.regenerations :=
  c2_amended_approve_never_rejects sampleStore 5 (by decide)

/-- C3 counterexample: in the reachable state `st3` (checkpoint 1 created
and then approved), `approved_through = 1 ≥ 1`, yet the persisted record
of checkpoint 1 still has status `awaiting_approval`, not `approved` —
the claimed equivalence fails in the left-to-right direction, and the
successful approve did not set the record's status field. -/
theorem c3_counterexample :
    Reach env0 st3 ∧ 1 ≤ st3.store.metadata.completed_checkpoints ∧
      checkpointStatusAt st3.store 1 = some CheckpointStatus.awaiting_approval ∧
      CheckpointStatus.awaiting_approval ≠ CheckpointStatus.approved :=
  ⟨reach_st3, by decide, by decide, by decide⟩

/-- C3 amended: approval is recorded solely in the session metadata
counter: a successful approve of `N` sets `approved_through = N` and
leaves every persisted checkpoint record (in particular its status field)
untouched; in every reachable state every persisted record's status is
`awaiting_approval`, so `approved_through ≥ N` never coincides with
record `N` having status `approved`. -/
theorem c3_amended_approval_only_in_counter :
    (∀ env s, Reach env s → ∀ cp, cp ∈ s.store.checkpoints →
        cp.status = CheckpointStatus.awaiting_approval) ∧
      (∀ st n m, checkpointStatusAt (approve_checkpoint st n) m = checkpointStatusAt st m ∧
        (approve_checkpoint st n).metadata.completed_checkpoints = n) := by
  constructor
  · intro env s h cp hm
    obtain ⟨nn, _, _, _, hcp⟩ := mem_checkpoint_char env s h cp hm
    rw [hcp]
    rfl
  · intro st n m
    exact ⟨rfl, rfl⟩

/-- C3 witness: checkpoint 1 of the concrete run has status
`awaiting_approval`, and approving does not change any stored status. -/
theorem c3_witness :
    (mkCheckpoint env0 1 (agentOfNum 1) (waveOfNum 1)).status
        = CheckpointStatus.awaiting_approval ∧
      checkpointStatusAt (approve_checkpoint sampleStore 3) 1
        = checkpointStatusAt sampleStore 1 :=
  ⟨c3_amended_approval_only_in_counter.1 env0 st2 reach_st2
      (mkCheckpoint env0 1 (agentOfNum 1) (waveOfNum 1)) (by decide),
    (c3_amended_approval_only_in_counter.2 sampleStore 3 1).1⟩

/-- C4 counterexample: `st10` is reachable; in it checkpoint 3 (wave 2)
exists while checkpoint 1 (wave 1) has status `awaiting_approval`, which
is not `approved` — so a wave-2 checkpoint exists while a wave-1
checkpoint has a status other than `approved`. -/
theorem c4_counterexample :
    Reach env0 st10 ∧
      checkpointWaveAt st10.store 3 = some 2 ∧
      checkpointWaveAt st10.store 1 = some 1 ∧
      checkpointStatusAt st10.store 1 = some CheckpointStatus.awaiting_approval ∧
      CheckpointStatus.awaiting_approval ≠ CheckpointStatus.approved :=
  ⟨reach_st10, by decide, by decide, by decide, by decide⟩

/-- C4 amended: whenever a checkpoint of wave `w + 1` exists, every
persisted checkpoint of wave `w` has a smaller number and its approval
wait exited at an earlier step of the run with the durable approval
counter at or above its number (so wave `w + 1` indeed never starts
before wave `w` is fully approved in the counter sense); however the
wave-`w` records' persisted status field remains `awaiting_approval`,
never becoming `approved`. -/
theorem c4_amended_wave_barrier (env : Env) (s : OrchState) (h : Reach env s)
    (cp cp' : Checkpoint) (hm : cp ∈ s.store.checkpoints)
    (hm' : cp' ∈ s.store.checkpoints)
    (hw : cp'.metadata.wave + 1 = cp.metadata.wave) :
    cp'.checkpoint_number < cp.checkpoint_number ∧
      cp'.status = CheckpointStatus.awaiting_approval ∧
      WaitExitedBefore env s cp'.checkpoint_number := by
  obtain ⟨n, hn1, hn7, hnle, hcp⟩ := mem_checkpoint_char env s h cp hm
  obtain ⟨n', hn'1, hn'7, hn'le, hcp'⟩ := mem_checkpoint_char env s h cp' hm'
  subst hcp
  subst hcp'
  have hww : waveOfNum n' + 1 = waveOfNum n := hw
  have hfin : ∀ p q : Fin 8, waveOfNum q.val + 1 = waveOfNum p.val → q.val < p.val := by
    decide
  have hlt : n' < n := hfin ⟨n, by omega⟩ ⟨n', by omega⟩ hww
  exact ⟨hlt, rfl, (temporalInv env s h).1 n' hn'1 (by omega)⟩

/-- C4 witness: the amended statement at the concrete state `st10`, with
`cp` = checkpoint 3 (wave 2) and `cp'` = checkpoint 1 (wave 1). -/
theorem c4_witness :
    (mkCheckpoint env0 1 (agentOfNum 1) (waveOfNum 1)).checkpoint_number
        < (mkCheckpoint env0 3 (agentOfNum 3) (waveOfNum 3)).checkpoint_number ∧
      (mkCheckpoint env0 1 (agentOfNum 1) (waveOfNum 1)).status
        = CheckpointStatus.awaiting_approval ∧
      WaitExitedBefore env0 st10
        (mkCheckpoint env0 1 (agentOfNum 1) (waveOfNum 1)).checkpoint_number :=
  c4_amended_wave_barrier env0 st10 reach_st10
    (mkCheckpoint env0 3 (agentOfNum 3) (waveOfNum 3))
    (mkCheckpoint env0 1 (agentOfNum 1) (waveOfNum 1))
    (by decide) (by decide) (by decide)

/-- C5 counterexample: rejecting checkpoint 1 with feedback
"too generic" through the feedback endpoint changes nothing at all: the
session state is returned unchanged — in particular `regenerations` is
not incremented (it stays 0, the claim requires it to become 1) and
`approved_through` is not advanced. -/
theorem c5_counterexample :
    (submit_feedback sampleStore 1 "too generic").1 = sampleStore ∧
      (submit_feedback sampleStore 1 "too generic").1.metadata.regenerations = 0 ∧
      (submit_feedback sampleStore 1 "too generic").1.metadata.completed_checkpoints = 0 :=
  ⟨rfl, rfl, rfl⟩

/-- C5 amended: no single rejection path records the feedback,
increments `regenerations` and advances the scheduler: the HTTP feedback
endpoint returns a canned "regenerating" response and leaves the session
state untouched; `regenerate_agent` increments `regenerations` but
neither stores the feedback nor advances `approved_through`; and the
terminal rejection flow advances `approved_through` exactly as an
approval would, without incrementing `regenerations`. -/
theorem c5_amended_rejection_paths (s : SessionState) (n : Nat) (a fb : String) :
    (submit_feedback s n fb).1 = s ∧
      (submit_feedback s n fb).2.status = "regenerating" ∧
      (regenerate_agent s a fb).metadata.regenerations = s.metadata.regenerations + 1 ∧
      (regenerate_agent s a fb).metadata.completed_checkpoints
        = s.metadata.completed_checkpoints ∧
      (regenerate_agent s a fb).checkpoints = s.checkpoints ∧
      (regenerate_agent s a fb).kb = s.kb ∧
      reject_checkpoint_terminal s n fb = approve_checkpoint s n ∧
      (reject_checkpoint_terminal s n fb).metadata.completed_checkpoints = n ∧
      (reject_checkpoint_terminal s n fb).metadata.regenerations
        = s.metadata.regenerations :=
  ⟨rfl, rfl, rfl, rfl, rfl, rfl, rfl, rfl, rfl⟩

/-- C6 counterexample: in the reachable failed state `u9` (the
`voice_dialogue` task of wave 2 raised "boom"), the session is failed and
an `error` event was emitted — but no error event in the whole run
carries the failing task's name (the emitted event's agent field is
empty). -/
theorem c6_counterexample :
    Reach env1 u9 ∧
      u9.store.metadata.status = SessionStatus.failed ∧
      Event.error ("Character development failed: " ++ "boom") none ∈ u9.events ∧
      u9.events.filter isErrorWithAgent = [] :=
  ⟨reach_u9, rfl, by decide, by decide⟩

/-- C6 amended: if a wave task raises, the wave is aborted and the
session's status becomes `failed`; an `error` event carrying the message
(but not the failing task's name — no emitted error event ever names an
agent) is emitted; from then on no step ever creates another checkpoint
or leaves the failed phase, and every persisted checkpoint remains
stored and fetchable unchanged. -/
theorem c6_amended_failure_semantics (env : Env) (s : OrchState) (w : Nat)
    (a msg : String) (h : Reach env s) (hpc : s.pc = Phase.beforeWave w)
    (herr : firstError env w = some (a, msg)) :
    (doWaveErr s w msg).store.metadata.status = SessionStatus.failed ∧
      Event.error ("Character development failed: " ++ msg) none
        ∈ (doWaveErr s w msg).events ∧
      (∀ m ag, Event.error m ag ∈ (doWaveErr s w msg).events → ag = none) ∧
      (doWaveErr s w msg).store.checkpoints = s.store.checkpoints ∧
      (∀ t, Relation.ReflTransGen (Step env) (doWaveErr s w msg) t →
        t.pc = Phase.failed ∧ t.store.checkpoints = s.store.checkpoints ∧
          ∀ n, get_checkpoint t.store n = get_checkpoint s.store n) := by
  have hreach : Reach env (doWaveErr s w msg) :=
    Relation.ReflTransGen.tail h (Step.waveErr s w a msg hpc herr)
  refine ⟨rfl, ?_, ?_, rfl, ?_⟩
  · simp [doWaveErr]
  · exact error_events_have_no_agent env _ hreach
  · intro t ht
    obtain ⟨hpct, hct, _, _, _, _⟩ := failed_stable env _ t rfl ht
    refine ⟨hpct, hct, ?_⟩
    intro n
    simp only [get_checkpoint, hct]
    rfl

/-- C6 witness: the amended statement at the concrete failing run. -/
theorem c6_witness :
    (doWaveErr u8 2 "boom").store.metadata.status = SessionStatus.failed ∧
      Event.error ("Character development failed: " ++ "boom") none
        ∈ (doWaveErr u8 2 "boom").events :=
  ⟨(c6_amended_failure_semantics env1 u8 2 "voice_dialogue" "boom" reach_u8 rfl rfl).1,
    (c6_amended_failure_semantics env1 u8 2 "voice_dialogue" "boom" reach_u8 rfl rfl).2.1⟩

/-- C7 counterexample: the operation sequence approve(2); approve(1)
drives `approved_through` from 0 up to 2 and then back down to 1 — the
counter is not monotonically non-decreasing over every sequence of
operations, because approve overwrites it with the requested number
without validation. -/
theorem c7_counterexample :
    (applyOps sampleStore [ApiOp.approve 2]).metadata.completed_checkpoints = 2 ∧
      (applyOps sampleStore
          [ApiOp.approve 2, ApiOp.approve 1]).metadata.completed_checkpoints = 1 ∧
      ¬ (2 : Nat) ≤ 1 :=
  ⟨rfl, rfl, by decide⟩

/-- C7 amended: an approve of the correct next number
`approved_through + 1` increases `approved_through` by exactly 1, and the
counter is non-decreasing under every API operation whose approval number
is not below its current value; an approval of a smaller number — which
the code accepts — overwrites and can decrease it. -/
theorem c7_amended_monotonicity (s : SessionState) (op : ApiOp) (hin : InOrder s op) :
    (applyOp s
        (ApiOp.approve (s.metadata.completed_checkpoints + 1))).metadata.completed_checkpoints
      = s.metadata.completed_checkpoints + 1 ∧
    s.metadata.completed_checkpoints ≤ (applyOp s op).metadata.completed_checkpoints := by
  refine ⟨rfl, ?_⟩
  cases op with
  | approve n => exact hin
  | feedback n fb => exact Nat.le_refl _
  | regenerate a fb => exact Nat.le_refl _
  | rejectTerminal n fb => exact hin

/-- C7 witness: the amended statement at the fresh store and approve(3). -/
theorem c7_witness :
    (applyOp sampleStore
        (ApiOp.approve
          (sampleStore.metadata.completed_checkpoints + 1))).metadata.completed_checkpoints
      = sampleStore.metadata.completed_checkpoints + 1 ∧
    sampleStore.metadata.completed_checkpoints
      ≤ (applyOp sampleStore (ApiOp.approve 3)).metadata.completed_checkpoints :=
  c7_amended_monotonicity sampleStore (ApiOp.approve 3)
    (by show sampleStore.metadata.completed_checkpoints ≤ 3; decide)

/-- C8: the gate's wait is a short-interval poll of the durable approval
state: the interval is 0.5 s ≤ 1 s; each iteration loads the persisted
metadata afresh and the loop returns exactly at the first read whose
approved counter has reached the checkpoint number (and does return once
some read reaches it); it has no timeout — if the counter never reaches
the number the loop never returns however long it runs — and no
transition taken while the orchestrator sits in a wait changes the
session status, so the session is never marked failed by waiting (there
is no `CheckpointTimeout`). -/
theorem c8_gate_poll_semantics :
    checkpoint_poll_interval_seconds ≤ 1 ∧
      (∀ reads n fuel i, wait_for_checkpoint_approval reads n fuel = some i →
        n ≤ (reads i).completed_checkpoints ∧
          ∀ j, j < i → (reads j).completed_checkpoints < n) ∧
      (∀ reads n i fuel, n ≤ (reads i).completed_checkpoints → i < fuel →
        ∃ j, j ≤ i ∧ wait_for_checkpoint_approval reads n fuel = some j) ∧
      (∀ reads n, (∀ i, (reads i).completed_checkpoints < n) →
        ∀ fuel, wait_for_checkpoint_approval reads n fuel = none) ∧
      (∀ env s s' w k i, Step env s s' → s.pc = Phase.awaiting w k i →
        s'.store.metadata.status = s.store.metadata.status) := by
  refine ⟨?_, ?_, ?_, ?_, ?_⟩
  · norm_num [checkpoint_poll_interval_seconds]
  · intro reads n fuel i hsome
    obtain ⟨h1, h2, h3⟩ := wait_poll_first reads n fuel 0 i hsome
    exact ⟨h2, fun j hj => h3 j (Nat.zero_le _) hj⟩
  · intro reads n i fuel hi hfuel
    obtain ⟨j, hj1, hj2, hj3⟩ := wait_poll_returns reads n fuel 0 i (Nat.zero_le _)
      (by omega) hi
    exact ⟨j, hj2, hj3⟩
  · intro reads n hall fuel
    exact wait_poll_no_timeout reads n hall fuel 0
  · intro env s s' w k i hstep hpc
    cases hstep with
    | waveOk w' hpc' herr => rw [hpc] at hpc'; exact Phase.noConfusion hpc'
    | waveErr w' a msg hpc' herr => rw [hpc] at hpc'; exact Phase.noConfusion hpc'
    | create w' i' a hpc' ha => rw [hpc] at hpc'; exact Phase.noConfusion hpc'
    | approvedContinue w' k' i' hpc' happ => rfl
    | waveDone w' hpc' => rw [hpc] at hpc'; exact Phase.noConfusion hpc'
    | finalCreate hpc' => rw [hpc] at hpc'; exact Phase.noConfusion hpc'
    | finalApproved k' hpc' happ => rw [hpc] at hpc'; exact Phase.noConfusion hpc'
    | apiApprove n' => rfl
    | apiRegenerate a fb => rfl
    | apiFeedback n' fb => rfl

/-- C8 witness: with snapshots whose counter grows by one per iteration,
waiting for checkpoint 2 returns at iteration 2, the first read at which
the counter reaches 2. -/
theorem c8_witness :
    checkpoint_poll_interval_seconds ≤ 1 ∧
      2 ≤ (reads0 2).completed_checkpoints ∧
      wait_for_checkpoint_approval reads0 2 10 = some 2 :=
  ⟨c8_gate_poll_semantics.1,
    (c8_gate_poll_semantics.2.1 reads0 2 10 2 rfl).1,
    rfl⟩

/-- C9: a task running in wave 2 receives the knowledge base as its
shared-context snapshot, and at the moment wave 2 launches that snapshot
contains exactly the structured outputs of the wave-1 tasks — each stored
under its own task name — and no output of any other task. -/
theorem c9_wave2_context (env : Env) (s : OrchState) (h : Reach env s)
    (hpc : s.pc = Phase.beforeWave 2) :
    (∀ a, a ∈ waveAgents 1 →
        s.store.kb.taskOutput a = some (env.results a).structured) ∧
      (∀ a, a ∉ waveAgents 1 → s.store.kb.taskOutput a = none) := by
  obtain ⟨hpre, hstat, hph⟩ := structInv env s h
  rw [hpc] at hph
  simp only [PhaseInv] at hph
  obtain ⟨hw, hlen, hkb⟩ := hph
  constructor
  · intro a ha
    simp only [waveAgents, List.mem_cons, List.not_mem_nil, or_false] at ha
    rcases ha with rfl | rfl <;> rw [hkb] <;> rfl
  · intro a ha
    rw [hkb]
    have h1 : a ≠ "personality" := by
      rintro rfl
      exact ha (by decide)
    have h2 : a ≠ "backstory_motivation" := by
      rintro rfl
      exact ha (by decide)
    by_cases h3 : a = "voice_dialogue"
    · subst h3; rfl
    by_cases h4 : a = "physical_description"
    · subst h4; rfl
    by_cases h5 : a = "story_arc"
    · subst h5; rfl
    by_cases h6 : a = "relationships"
    · subst h6; rfl
    by_cases h7 : a = "image_generation"
    · subst h7; rfl
    simp [KnowledgeBase.taskOutput, h1, h2, h3, h4, h5, h6, h7]

/-- C9 witness: at the concrete state about to run wave 2, the context
holds the `personality` output and no `story_arc` output. -/
theorem c9_witness :
    st8.store.kb.taskOutput "personality"
        = some (env0.results "personality").structured ∧
      st8.store.kb.taskOutput "story_arc" = none :=
  ⟨(c9_wave2_context env0 st8 reach_st8 rfl).1 "personality" (by decide),
    (c9_wave2_context env0 st8 reach_st8 rfl).2 "story_arc" (by decide)⟩

/-- C10: the approve operation modifies only the session metadata's
approved-checkpoint counter: after `approve(session, n)` every persisted
checkpoint record (status, output and metadata included), the shared
context, the final profile and every other metadata field are unchanged;
only `completed_checkpoints` becomes `n`. -/
theorem c10_approve_frame (s : SessionState) (n : Nat) :
    (approve_checkpoint s n).metadata.completed_checkpoints = n ∧
      (approve_checkpoint s n).checkpoints = s.checkpoints ∧
      (∀ m, get_checkpoint (approve_checkpoint s n) m = get_checkpoint s m) ∧
      (approve_checkpoint s n).kb = s.kb ∧
      (approve_checkpoint s n).final_profile = s.final_profile ∧
      (approve_checkpoint s n).metadata.character_id = s.metadata.character_id ∧
      (approve_checkpoint s n).metadata.created_at = s.metadata.created_at ∧
      (approve_checkpoint s n).metadata.status = s.metadata.status ∧
      (approve_checkpoint s n).metadata.mode = s.metadata.mode ∧
      (approve_checkpoint s n).metadata.current_wave = s.metadata.current_wave ∧
      (approve_checkpoint s n).metadata.current_checkpoint
        = s.metadata.current_checkpoint ∧
      (approve_checkpoint s n).metadata.total_checkpoints
        = s.metadata.total_checkpoints ∧
      (approve_checkpoint s n).metadata.regenerations = s.metadata.regenerations ∧
      (approve_checkpoint s n).metadata.completed_at = s.metadata.completed_at ∧
      (approve_checkpoint s n).metadata.error = s.metadata.error :=
  ⟨rfl, rfl, fun m => rfl, rfl, rfl, rfl, rfl, rfl, rfl, rfl, rfl, rfl, rfl, rfl, rfl⟩


